import Mathlib

/-
Shallow embedding of the techdoc-experiment repository:
  * src/port_tools/parsers/doc_parser.py   (DocParser, DocMetadata)
  * src/port_tools/ingester.py             (DocumentIngester._construct_entity_payload)
  * src/port_tools/search/bot.py           (DocumentSearcher, DocumentationBot)
  * custom_search.py                       (DocumentSearcher, DocumentationBot variant)

Python strings are modelled as Lean `String` and manipulated through their
character lists.  Character classes (whitespace, lower/upper case) follow the
ASCII range, which covers the documents and identifiers this repository
handles.  Calls into third-party code that cannot be embedded are oracle
parameters:
  * `yaml`   : String → Except String YamlDoc   models `yaml.load` inside
               python-frontmatter (an `.error` is a raised YAMLError);
  * `render` : String → String                  models
               `BeautifulSoup(markdown.markdown(s), 'html.parser').get_text()`;
  * `remote` : String → Except String (List Entity) models the
               requests.post search call (an `.error` is a raised exception).
-/

namespace TechDoc

/-- Python whitespace class (`\s`, `str.split()`, `str.strip()`), ASCII range. -/
def isPySpace (c : Char) : Bool :=
  c == ' ' || c == '\t' || c == '\n' || c == '\r' || c == '\x0b' || c == '\x0c'

/-- Python `str.lower` on one character (ASCII range). -/
def lowChar (c : Char) : Char :=
  if 65 ≤ c.toNat ∧ c.toNat ≤ 90 then Char.ofNat (c.toNat + 32) else c

/-- Python `str.upper` on one character (ASCII range). -/
def upChar (c : Char) : Char :=
  if 97 ≤ c.toNat ∧ c.toNat ≤ 122 then Char.ofNat (c.toNat - 32) else c

/-- Python `str.lower`. -/
def lowerStr (s : String) : String := ⟨s.data.map lowChar⟩

/-- Python `str.strip()` on a character list. -/
def pyStripList (l : List Char) : List Char :=
  ((l.dropWhile isPySpace).reverse.dropWhile isPySpace).reverse

/-- Python `str.strip()`. -/
def pyStrip (s : String) : String := ⟨pyStripList s.data⟩

/-- Helper for `pyWords`: accumulates the current word (reversed). -/
def wordsAux : List Char → List Char → List (List Char)
  | acc, [] => if acc.isEmpty then [] else [acc.reverse]
  | acc, c :: rest =>
    if isPySpace c then
      if acc.isEmpty then wordsAux [] rest else acc.reverse :: wordsAux [] rest
    else wordsAux (c :: acc) rest

/-- Python `str.split()` with no argument: split on whitespace runs, no empties. -/
def pyWords (s : String) : List String := (wordsAux [] s.data).map (fun w => ⟨w⟩)

/-- Python `sep.join(xs)`. -/
def joinSep (sep : String) : List String → String
  | [] => ""
  | [x] => x
  | x :: y :: xs => x ++ sep ++ joinSep sep (y :: xs)

/-- Lexicographic `≤` on code points, i.e. Python string comparison. -/
def lexLe : List Char → List Char → Bool
  | [], _ => true
  | _ :: _, [] => false
  | a :: as, b :: bs =>
    if a.toNat < b.toNat then true
    else if b.toNat < a.toNat then false
    else lexLe as bs

/-- Python `a <= b` on strings. -/
def strLe (a b : String) : Bool := lexLe a.data b.data

/-- Insertion step of an ascending insertion sort. -/
def insertStr (a : String) : List String → List String
  | [] => [a]
  | b :: rest => if strLe a b then a :: b :: rest else b :: insertStr a rest

/-- Ascending sort by code-point order, i.e. Python `sorted` on strings. -/
def sortStrings (l : List String) : List String := l.foldr insertStr []

/-- Removes duplicates keeping the first occurrence (`seen` accumulator). -/
def dedupStrAux (seen : List String) : List String → List String
  | [] => []
  | a :: rest =>
    if a ∈ seen then dedupStrAux seen rest else a :: dedupStrAux (a :: seen) rest

/-- Python `sorted(list(set(xs)))` on strings. -/
def sortedDedup (l : List String) : List String := sortStrings (dedupStrAux [] l)

/-- Does the second list occur as a prefix of the first? -/
def startsWithChars : List Char → List Char → Bool
  | _, [] => true
  | [], _ :: _ => false
  | c :: cs, p :: ps => c == p && startsWithChars cs ps

/-- Does the second list occur as a contiguous sublist of the first? -/
def hasSubChars : List Char → List Char → Bool
  | [], pat => pat.isEmpty
  | c :: rest, pat => startsWithChars (c :: rest) pat || hasSubChars rest pat

/-- Python `pat in s` (substring containment). -/
def strContains (s pat : String) : Bool := hasSubChars s.data pat.data

namespace DocParser

/-- Mirrors the `DocMetadata` dataclass of doc_parser.py. -/
structure DocMetadata where
  title : String
  content : String
  source : String
  filePath : String
  lastUpdated : String
  summary : Option String
  category : Option String
  tags : List String
  repositoryUrl : Option String
  fileUrl : Option String
  wordCount : Nat
  readingTime : Nat
deriving DecidableEq

/-- The front-matter keys `DocParser.parse` reads.  Scalar YAML values are
modelled as strings; a missing key or a YAML null is `none`. -/
structure FrontMatter where
  title : Option String
  description : Option String
  category : Option String
  tags : List String
deriving DecidableEq

/-- The empty front-matter mapping `{}`. -/
def emptyFM : FrontMatter := ⟨none, none, none, []⟩

/-- Result of `yaml.load` on a front-matter block: a mapping (restricted to the
keys `parse` reads) or any non-mapping YAML document. -/
inductive YamlDoc where
  | dict (fm : FrontMatter)
  | other
deriving DecidableEq

/-- Greedy match of the regex tail `\s*$` (re.MULTILINE semantics: `$` matches
at end of string or before a newline; `\s` may span newlines).  Returns the
remainder of the input after the matched characters. -/
def matchWsDollar : List Char → Option (List Char)
  | [] => some []
  | c :: rest =>
    if isPySpace c then
      match matchWsDollar rest with
      | some r => some r
      | none => if c = '\n' then some (c :: rest) else none
    else none

/-- Match of python-frontmatter's boundary regex `^-{3,}\s*$` at the head of
the input (which must be a line start).  Returns the remainder after the
match. -/
def matchBoundaryAt (l : List Char) : Option (List Char) :=
  if 3 ≤ (l.takeWhile (· == '-')).length then matchWsDollar (l.dropWhile (· == '-'))
  else none

/-- First boundary match at or after the current position (re.split scanning;
the Bool records whether the current position is a line start).  Returns the
piece before the match and the remainder after it. -/
def splitB : Bool → List Char → Option (List Char × List Char)
  | _, [] => none
  | lineStart, c :: rest =>
    if lineStart then
      match matchBoundaryAt (c :: rest) with
      | some rem => some ([], rem)
      | none =>
        match splitB (c == '\n') rest with
        | some (pre, rem) => some (c :: pre, rem)
        | none => none
    else
      match splitB (c == '\n') rest with
      | some (pre, rem) => some (c :: pre, rem)
      | none => none

/-- python-frontmatter `frontmatter.loads` with the YAML handler (the format
used by this repository's documents; JSON/TOML front matter is out of scope).
The input is stripped; if it does not start with a `---` boundary line, or
contains no second boundary, the metadata is empty and the body is the
stripped text.  Otherwise the block between the first two boundaries goes to
`yaml`; a raised YAMLError propagates as `.error`; a non-mapping document
yields empty metadata.  The body after the block is stripped. -/
def frontmatterLoads (yaml : String → Except String YamlDoc) (text : String) :
    Except String (FrontMatter × String) :=
  let t := pyStripList text.data
  if (matchBoundaryAt t).isSome then
    match splitB true t with
    | some (_, r1) =>
      match splitB false r1 with
      | some (fmChars, r2) =>
        match yaml ⟨fmChars⟩ with
        | .error e => .error e
        | .ok (.dict fm) => .ok (fm, ⟨pyStripList r2⟩)
        | .ok .other => .ok (emptyFM, ⟨pyStripList r2⟩)
      | none => .ok (emptyFM, ⟨t⟩)
    | none => .ok (emptyFM, ⟨t⟩)
  else .ok (emptyFM, ⟨t⟩)

/-- DocParser.extract_frontmatter: calls `frontmatter.loads` and degrades to
`({}, content)` when it raises. -/
def extractFrontmatter (yaml : String → Except String YamlDoc) (content : String) :
    FrontMatter × String :=
  match frontmatterLoads yaml content with
  | .ok p => p
  | .error _ => (emptyFM, content)

/-- The part of a line matched by `(.+)$`: everything up to the next newline. -/
def groupLine (l : List Char) : List Char := l.takeWhile (· != '\n')

/-- Continuation of `^#\s+(.+)$` after at least one whitespace character has
been consumed: greedily consume more whitespace, falling back to matching
`(.+)$` at the current position. -/
def goWs : List Char → Option (List Char)
  | [] => none
  | c :: rest =>
    if isPySpace c then
      match goWs rest with
      | some g => some g
      | none => if c = '\n' then none else some (groupLine (c :: rest))
    else some (groupLine (c :: rest))

/-- Attempt to match `#\s+(.+)$` at the head of the input (a line start);
returns regex group 1. -/
def matchHashAt : List Char → Option (List Char)
  | '#' :: c :: rest => if isPySpace c then goWs rest else none
  | _ => none

/-- `re.search` scanning for the leftmost match of `^#\s+(.+)$` (MULTILINE):
the pattern can only start at a line start. -/
def searchAux : Bool → List Char → Option (List Char)
  | _, [] => none
  | lineStart, c :: rest =>
    if lineStart then
      match matchHashAt (c :: rest) with
      | some g => some g
      | none => searchAux (c == '\n') rest
    else searchAux (c == '\n') rest

/-- Group 1 of `re.search(r'^#\s+(.+)$', content, re.MULTILINE)`. -/
def searchTitle (content : String) : Option (List Char) := searchAux true content.data

/-- Python `str.split('/')` (keeps empty pieces). -/
def splitSlash : List Char → List (List Char)
  | [] => [[]]
  | c :: rest =>
    match splitSlash rest with
    | [] => [[]]
    | w :: ws => if c == '/' then [] :: w :: ws else (c :: w) :: ws

/-- The non-root components of `pathlib.PurePosixPath(p).parts`: empty and
`.` components are dropped. -/
def pathCompsNoRoot (p : String) : List String :=
  ((splitSlash p.data).map (fun w => (⟨w⟩ : String))).filter
    (fun s => !(s == "") && !(s == "."))

/-- `pathlib.PurePosixPath(p).parts` (with a leading `/` root component). -/
def pathComponents (p : String) : List String :=
  if p.data.head? = some '/' then "/" :: pathCompsNoRoot p else pathCompsNoRoot p

/-- `pathlib.PurePosixPath(p).name`. -/
def pathName (p : String) : String := (pathCompsNoRoot p).getLastD ""

/-- `pathlib.PurePosixPath(p).stem`: the name up to its last dot, when that
dot is neither the first nor the last character of the name. -/
def pathStem (p : String) : String :=
  let name := (pathName p).data
  match name.reverse.findIdx? (· == '.') with
  | none => ⟨name⟩
  | some j =>
    let i := name.length - 1 - j
    if 0 < i ∧ i < name.length - 1 then ⟨name.take i⟩ else ⟨name⟩

/-- Helper for `pyTitle`: the Bool records whether the previous character was
cased (a letter). -/
def titleCaseAux : Bool → List Char → List Char
  | _, [] => []
  | prevCased, c :: rest =>
    if c.isAlpha then
      (if prevCased then lowChar c else upChar c) :: titleCaseAux true rest
    else c :: titleCaseAux false rest

/-- Python `str.title()` (ASCII range). -/
def pyTitle (s : String) : String := ⟨titleCaseAux false s.data⟩

/-- The filename fallback of extract_title:
`Path(p).stem.replace('-', ' ').replace('_', ' ').title()`. -/
def filenameTitle (sourcePath : String) : String :=
  pyTitle ⟨(pathStem sourcePath).data.map (fun c => if c == '-' || c == '_' then ' ' else c)⟩

/-- DocParser.extract_title: first level-1 heading, else filename-derived. -/
def extractTitle (content sourcePath : String) : String :=
  match searchTitle content with
  | some g => ⟨pyStripList g⟩
  | none => filenameTitle sourcePath

/-- The part of `l` strictly before its last space, or all of `l` when it has
no space: Python `''.join(l).rsplit(' ', 1)[0]`. -/
def beforeLastSpace (l : List Char) : List Char :=
  if ' ' ∈ l then ((l.reverse.dropWhile (· != ' ')).drop 1).reverse else l

/-- DocParser.generate_summary with its default `max_length = 250`;
`render` models the markdown-to-plain-text pipeline. -/
def generateSummary (render : String → String) (content : String) : String :=
  let text := pyStrip (render content)
  let summary := joinSep " " ((pyWords text).take 50)
  if 250 < summary.length then (⟨beforeLastSpace (summary.data.take 250)⟩ : String) ++ "..."
  else summary

/-- DocParser.categorize_document: path-substring rules in priority order
(the content argument is accepted and ignored, as in the code). -/
def categorizeDocument (sourcePath : String) (_content : String) : String :=
  let pl := lowerStr sourcePath
  if strContains pl "api" || strContains pl "reference" then "API Reference"
  else if strContains pl "guide" || strContains pl "tutorial" then "Guide"
  else if strContains pl "example" then "Example"
  else if strContains pl "concept" then "Concept"
  else "Documentation"

/-- The fixed technology-keyword vocabulary of extract_tags. -/
def techTerms : List String :=
  ["api", "rest", "graphql", "webhook", "python", "javascript",
   "docker", "kubernetes", "aws", "azure", "gcp", "integration"]

/-- `s.lower().replace('_', '-')`. -/
def tagNorm (s : String) : String :=
  ⟨s.data.map (fun c => if lowChar c == '_' then '-' else lowChar c)⟩

/-- The parent-directory tag of extract_tags: `Path(p).parts[-2]`, normalized,
when the path has more than one component. -/
def dirTag (sourcePath : String) : List String :=
  let parts := pathComponents sourcePath
  if 1 < parts.length then
    match (parts.reverse.drop 1).head? with
    | some d => [tagNorm d]
    | none => []
  else []

/-- DocParser.extract_tags: directory tag plus detected technology terms,
deduplicated and sorted. -/
def extractTags (sourcePath content : String) : List String :=
  sortedDedup (dirTag sourcePath ++ techTerms.filter (fun t => strContains (lowerStr content) t))

/-- Python `round(wc / 200)` (ties to even, exact for these operands). -/
def pyRound200 (wc : Nat) : Nat :=
  let q := wc / 200
  let r := wc % 200
  if r < 100 then q else if 100 < r then q + 1 else if q % 2 == 0 then q else q + 1

/-- Python `fm.get(key) or fallback`: a missing, null or empty value falls
through to the fallback. -/
def orFalsy (v : Option String) (fallback : String) : String :=
  match v with
  | some s => if s == "" then fallback else s
  | none => fallback

/-- DocParser.parse. -/
def parse (yaml : String → Except String YamlDoc) (render : String → String)
    (content source filePath lastUpdated : String)
    (repoUrl fileUrl : Option String) : DocMetadata :=
  let fmc := extractFrontmatter yaml content
  let fm := fmc.1
  let mainContent := fmc.2
  let wordCount := (pyWords mainContent).length
  { title := orFalsy fm.title (extractTitle mainContent filePath)
    content := mainContent
    source := source
    filePath := filePath
    lastUpdated := lastUpdated
    summary := some (orFalsy fm.description (generateSummary render mainContent))
    category := some (orFalsy fm.category (categorizeDocument filePath mainContent))
    tags := sortedDedup (fm.tags ++ extractTags filePath mainContent)
    repositoryUrl := repoUrl
    fileUrl := fileUrl
    wordCount := wordCount
    readingTime := max 1 (pyRound200 wordCount) }

end DocParser

namespace Ingester

/-- One character of `s.lower().replace(' ', '-')` (ASCII range). -/
def normChar (c : Char) : Char := if lowChar c == ' ' then '-' else lowChar c

/-- `s.lower().replace(' ', '-')`. -/
def normStr (s : String) : String := ⟨s.data.map normChar⟩

/-- The catalog entity identifier of
DocumentIngester._construct_entity_payload:
`f"{source}/{file_path}".lower().replace(" ", "-")`. -/
def constructIdentifier (source filePath : String) : String :=
  normStr (source ++ "/" ++ filePath)

end Ingester

namespace Search

/-- The `properties` mapping of a search result, restricted to the keys the
bots read. -/
structure EntityProps where
  summary : Option String
  category : Option String
  tags : List String
deriving DecidableEq

/-- One entity record returned by the remote search endpoint. -/
structure Entity where
  identifier : Option String
  title : Option String
  properties : EntityProps
deriving DecidableEq

/-- `result.get('identifier', '')`. -/
def Entity.key (e : Entity) : String := e.identifier.getD ""

/-- The first entity of a list whose identifier key equals `k`. -/
def firstWithKey (k : String) : List Entity → Option Entity
  | [] => none
  | e :: rest => if e.key = k then some e else firstWithKey k rest

/-- The structured value search_entities returns:
`{'ok': ..., 'entities': ..., 'error': ...}`. -/
structure SearchResponse where
  ok : Bool
  entities : List Entity
  error : Option String
deriving DecidableEq

/-- DocumentSearcher.search_entities: wraps the remote call; a raised request
error is caught and surfaced as `{ok: false, error}`. -/
def searchEntities (remote : String → Except String (List Entity)) (searchTerm : String) :
    SearchResponse :=
  match remote searchTerm with
  | .ok es => ⟨true, es, none⟩
  | .error e => ⟨false, [], some e⟩

/-- The identifier-deduplication loop of multi_strategy_search (`seen`
accumulator, first occurrence kept). -/
def dedupEnts (seen : List String) : List Entity → List Entity
  | [] => []
  | e :: rest =>
    if e.key ∈ seen then dedupEnts seen rest
    else e :: dedupEnts (e.key :: seen) rest

/-- The `seen_identifiers` set after the deduplication loop has processed a
list. -/
def seenAfter (seen : List String) : List Entity → List String
  | [] => seen
  | e :: rest =>
    if e.key ∈ seen then seenAfter seen rest else seenAfter (e.key :: seen) rest

/-- Strategy 1 of multi_strategy_search: the direct full-query search,
truncated to `max_results // 2` (empty when the call failed). -/
def directPart (remote : String → Except String (List Entity)) (query : String)
    (maxResults : Nat) : List Entity :=
  let results := searchEntities remote query
  if results.ok then results.entities.take (maxResults / 2) else []

/-- Strategy 2 of multi_strategy_search: one search per whitespace-separated
keyword longer than 3 characters (only when the query has more than one
keyword), each truncated to `max_results // 4`. -/
def keywordPart (remote : String → Except String (List Entity)) (query : String)
    (maxResults : Nat) : List Entity :=
  let keywords := pyWords query
  if 1 < keywords.length then
    (keywords.map (fun kw =>
      if 3 < kw.length then
        let kr := searchEntities remote kw
        if kr.ok then kr.entities.take (maxResults / 4) else []
      else [])).flatten
  else []

/-- DocumentSearcher.multi_strategy_search (the identical code appears in both
search/bot.py and custom_search.py): concatenate the two strategies,
deduplicate by identifier keeping first occurrences, truncate to
`max_results`. -/
def multiStrategySearch (remote : String → Except String (List Entity)) (query : String)
    (maxResults : Nat) : List Entity :=
  (dedupEnts [] (directPart remote query maxResults ++ keywordPart remote query maxResults)).take
    maxResults

end Search

namespace Bot

open Search

/-- One numbered item of _build_response_from_results (bot.py). -/
def itemLine (i : Nat) (e : Entity) : String :=
  let title := e.title.getD "Untitled"
  let summary := e.properties.summary.getD "No summary available."
  let category := e.properties.category.getD "General"
  toString i ++ ". **" ++ title ++ "** (Category: " ++ category ++ ")\n" ++
    "   *Summary:* " ++ (⟨summary.data.take 250⟩ : String) ++
    (if 250 < summary.length then "..." else "") ++ "\n\n"

/-- The `for i, result in enumerate(results[:5], 1)` loop body accumulation. -/
def itemsFrom (i : Nat) : List Entity → String
  | [] => ""
  | e :: rest => itemLine i e ++ itemsFrom (i + 1) rest

/-- DocumentationBot._build_response_from_results (bot.py). -/
def buildResponseFromResults (query : String) (results : List Entity) : String :=
  "Based on your query '" ++ query ++ "', here are the most relevant documents I found:\n\n" ++
    itemsFrom 1 (results.take 5) ++
    (if 5 < results.length then
      "...and " ++ toString (results.length - 5) ++ " more results were found.\n"
    else "")

/-- DocumentationBot._no_results_response (bot.py). -/
def noResultsResponse (query : String) : String :=
  "I couldn't find any specific documentation for '" ++ query ++ "'.\n\n" ++
    "You could try:\n" ++
    "- Using different or more general keywords.\n" ++
    "- Checking for typos in your query.\n"

/-- DocumentationBot.search_and_respond (bot.py): multi-strategy search with
its default `max_results = 10`, then either the no-results template or the
built response. -/
def searchAndRespond (remote : String → Except String (List Entity)) (query : String) : String :=
  let results := multiStrategySearch remote query 10
  if results.isEmpty then noResultsResponse query else buildResponseFromResults query results

end Bot

namespace CustomSearch

open Search

/-- One numbered item of _build_response (custom_search.py): the summary line
is emitted only when the summary is truthy, and is truncated at 200
characters. -/
def itemLine (i : Nat) (e : Entity) : String :=
  let title := e.title.getD "Untitled"
  let summary := e.properties.summary.getD ""
  let category := e.properties.category.getD "General"
  toString i ++ ". **" ++ title ++ "** (" ++ category ++ ")\n" ++
    (if summary == "" then "" else
      "   " ++ (⟨summary.data.take 200⟩ : String) ++
        (if 200 < summary.length then "..." else "") ++ "\n") ++ "\n"

/-- The `for i, result in enumerate(results[:5], 1)` loop body accumulation. -/
def itemsFrom (i : Nat) : List Entity → String
  | [] => ""
  | e :: rest => itemLine i e ++ itemsFrom (i + 1) rest

/-- The overflow note of _build_response. -/
def overflowNote (results : List Entity) : String :=
  if 5 < results.length then
    "...and " ++ toString (results.length - 5) ++ " more results found.\n\n"
  else ""

/-- The `categories` set of _build_response: truthy categories over the full
result list.  (Python set iteration order is unspecified; the model fixes
first-insertion order.) -/
def collectCategories (results : List Entity) : List String :=
  dedupStrAux [] (results.filterMap (fun e =>
    match e.properties.category with
    | some c => if c == "" then none else some c
    | none => none))

/-- The `tags` set of _build_response: union of all result tag lists.
(Python set iteration order is unspecified; the model fixes first-insertion
order.) -/
def collectTags (results : List Entity) : List String :=
  dedupStrAux [] ((results.map (fun e => e.properties.tags)).flatten)

/-- The related-suggestions footer of _build_response: up to 3 categories and
up to 5 topics, each line emitted only when its set is non-empty. -/
def relatedFooter (results : List Entity) : String :=
  (if (collectCategories results).isEmpty then "" else
    "**Related categories:** " ++ joinSep ", " ((collectCategories results).take 3) ++ "\n") ++
  (if (collectTags results).isEmpty then "" else
    "**Related topics:** " ++ joinSep ", " ((collectTags results).take 5) ++ "\n")

/-- DocumentationBot._build_response (custom_search.py). -/
def buildResponse (query : String) (results : List Entity) : String :=
  "Based on your query about '" ++ query ++ "', here's what I found:\n\n" ++
    itemsFrom 1 (results.take 5) ++ overflowNote results ++ relatedFooter results

/-- DocumentationBot._no_results_response (custom_search.py). -/
def noResultsResponse (query : String) : String :=
  "I couldn't find specific documentation for '" ++ query ++
    "'. Here are some suggestions:\n\n" ++
    "1. Try using different keywords or synonyms\n" ++
    "2. Check if you're using the correct terminology\n" ++
    "3. Browse the main documentation categories:\n" ++
    "   - Getting Started\n" ++
    "   - Build Your Software Catalog\n" ++
    "   - Actions and Automations\n" ++
    "   - AI Agents\n" ++
    "   - Search and Query\n\n" ++
    "Would you like me to search for something else?"

/-- DocumentationBot.search_and_respond (custom_search.py): multi-strategy
search with its default `max_results = 10`, then either the no-results
template or the built response. -/
def searchAndRespond (remote : String → Except String (List Entity)) (query : String) : String :=
  let results := multiStrategySearch remote query 10
  if results.isEmpty then noResultsResponse query else buildResponse query results

end CustomSearch

/-! Specification-side definitions, written from the claims' wording, to be
compared against the code-side definitions above. -/

/-- The first 50 whitespace-separated words of the rendered plain text,
joined by single spaces (the claimed summary base). -/
def first50Words (render : String → String) (content : String) : String :=
  joinSep " " ((pyWords (pyStrip (render content))).take 50)

/-- The claimed category decision rule: path-substring rules on the
lowercased path, in fixed priority order, defaulting to "Documentation". -/
def categoryRule (filePath : String) : String :=
  if strContains (lowerStr filePath) "api" || strContains (lowerStr filePath) "reference" then
    "API Reference"
  else if strContains (lowerStr filePath) "guide" || strContains (lowerStr filePath) "tutorial" then
    "Guide"
  else if strContains (lowerStr filePath) "example" then "Example"
  else if strContains (lowerStr filePath) "concept" then "Concept"
  else "Documentation"

/-! Concrete oracle instantiations and fixtures used to evaluate the
embedding on specific inputs. -/

/-- A yaml oracle for inputs whose front matter is never consulted (contents
with no front-matter block never reach `yaml.load`). -/
def yamlUnused : String → Except String DocParser.YamlDoc :=
  fun _ => Except.ok DocParser.YamlDoc.other

/-- A yaml oracle that raises on every block (models malformed YAML). -/
def yamlBad : String → Except String DocParser.YamlDoc :=
  fun _ => Except.error "bad yaml value"

/-- A yaml oracle returning a mapping whose only key is `title: My Title`. -/
def yamlTitleOnly : String → Except String DocParser.YamlDoc :=
  fun _ => Except.ok (DocParser.YamlDoc.dict ⟨some "My Title", none, none, []⟩)

/-- A yaml oracle returning a mapping whose fields are present but empty
(Python-falsy). -/
def yamlFalsy : String → Except String DocParser.YamlDoc :=
  fun _ => Except.ok (DocParser.YamlDoc.dict ⟨some "", some "", some "", []⟩)

/-- Renderer oracle for plain text with no markdown markup, where
`markdown` + `get_text` return the text itself. -/
def renderId : String → String := fun s => s

/-- A single 300-character word (no markdown markup, no whitespace). -/
def longWord : String := ⟨List.replicate 300 'a'⟩

/-- The concrete document of the spec's worked example, parsed. -/
def c1doc : DocParser.DocMetadata :=
  DocParser.parse yamlUnused renderId "# Just a Header\n\nSome text." "github"
    "org/repo/README.md" "2024-01-01T00:00:00" none none

/-- A document with a well-formed front-matter title. -/
def contentTitled : String := "---\ntitle: My Title\n---\nBody here"

/-- A document whose front-matter fields are present but empty. -/
def contentFalsyFM : String :=
  "---\ntitle: \"\"\ndescription: \"\"\ncategory: \"\"\n---\n# Real Heading\n\nText here"

/-- A remote oracle on which every search call raises. -/
def remoteDown : String → Except String (List Search.Entity) :=
  fun _ => Except.error "connection error"

/-- A sample entity with a category and tags. -/
def entGuide : Search.Entity :=
  ⟨some "id1", some "Getting Started Guide", ⟨some "How to begin", some "Guide", ["python"]⟩⟩

/-- A sample entity with an empty summary and no category. -/
def entMisc : Search.Entity := ⟨some "id2", some "Misc Notes", ⟨some "", none, []⟩⟩

/-- A remote oracle with fixed responses (the full query returns a list with
a duplicate; each keyword returns `entMisc`). -/
def remoteDemo : String → Except String (List Search.Entity) :=
  fun t =>
    if t = "getting started" then Except.ok [entGuide, entMisc, entGuide]
    else Except.ok [entMisc]

end TechDoc

/-! Helper lemmas. -/

open TechDoc

theorem strDataAppend : ∀ a b : String, (a ++ b).data = a.data ++ b.data
  | ⟨_⟩, ⟨_⟩ => rfl

theorem strDataInj : ∀ {a b : String}, a.data = b.data → a = b
  | ⟨_⟩, ⟨_⟩, rfl => rfl

theorem strLengthAppend : ∀ (a b : String), (a ++ b).length = a.length + b.length
  | ⟨a⟩, ⟨b⟩ => List.length_append a b

theorem strLengthMk (l : List Char) : (⟨l⟩ : String).length = l.length := rfl

theorem lengthDropWhileLe (p : Char → Bool) (l : List Char) :
    (l.dropWhile p).length ≤ l.length := by
  induction l with
  | nil => simp
  | cons c rest ih =>
    simp only [List.dropWhile]
    cases p c
    · exact Nat.le_refl _
    · simp only [List.length_cons]
      exact Nat.le_succ_of_le ih

/-- `beforeLastSpace` never lengthens its input. -/
theorem beforeLastSpace_length_le (l : List Char) :
    (DocParser.beforeLastSpace l).length ≤ l.length := by
  unfold DocParser.beforeLastSpace
  by_cases h : ' ' ∈ l
  · rw [if_pos h]
    have h1 : (l.reverse.dropWhile (· != ' ')).length ≤ l.reverse.length :=
      lengthDropWhileLe _ _
    simp only [List.length_reverse] at h1
    simp only [List.length_reverse, List.length_drop]
    omega
  · rw [if_neg h]

/-- Splitting the deduplication loop over an append. -/
theorem dedupEnts_append (s : List String) (A B : List Search.Entity) :
    Search.dedupEnts s (A ++ B) =
      Search.dedupEnts s A ++ Search.dedupEnts (Search.seenAfter s A) B := by
  induction A generalizing s with
  | nil => simp [Search.dedupEnts, Search.seenAfter]
  | cons e rest ih =>
    simp only [List.cons_append, Search.dedupEnts, Search.seenAfter]
    by_cases h : e.key ∈ s
    · simp only [if_pos h]
      exact ih s
    · simp only [if_neg h, List.cons_append, List.cons.injEq, true_and]
      exact ih (e.key :: s)

/-- Keys of elements surviving deduplication are not in the seen set. -/
theorem dedupEnts_not_mem_seen (s : List String) (l : List Search.Entity) :
    ∀ e ∈ Search.dedupEnts s l, e.key ∉ s := by
  induction l generalizing s with
  | nil => simp [Search.dedupEnts]
  | cons a rest ih =>
    intro e he
    simp only [Search.dedupEnts] at he
    by_cases h : a.key ∈ s
    · rw [if_pos h] at he
      exact ih s e he
    · rw [if_neg h] at he
      rcases List.mem_cons.mp he with rfl | he'
      · exact h
      · intro hs
        exact ih (a.key :: s) e he' (List.mem_cons_of_mem _ hs)

/-- The deduplication loop produces pairwise-distinct keys. -/
theorem dedupEnts_keys_nodup (s : List String) (l : List Search.Entity) :
    ((Search.dedupEnts s l).map Search.Entity.key).Nodup := by
  induction l generalizing s with
  | nil => simp [Search.dedupEnts]
  | cons a rest ih =>
    simp only [Search.dedupEnts]
    by_cases h : a.key ∈ s
    · rw [if_pos h]
      exact ih s
    · rw [if_neg h]
      simp only [List.map_cons, List.nodup_cons]
      constructor
      · intro hmem
        rcases List.mem_map.mp hmem with ⟨e, he, hkey⟩
        exact dedupEnts_not_mem_seen _ _ e he (hkey ▸ List.mem_cons_self _ _)
      · exact ih (a.key :: s)

/-- Every survivor of the deduplication loop is the first element of the
input carrying its key. -/
theorem dedupEnts_first (s : List String) (l : List Search.Entity) :
    ∀ e ∈ Search.dedupEnts s l,
      Search.firstWithKey e.key l = some e := by
  induction l generalizing s with
  | nil => simp [Search.dedupEnts]
  | cons a rest ih =>
    intro e he
    simp only [Search.dedupEnts] at he
    by_cases h : a.key ∈ s
    · rw [if_pos h] at he
      have hne : a.key ≠ e.key := by
        intro hk
        exact dedupEnts_not_mem_seen s rest e he (hk ▸ h)
      rw [Search.firstWithKey, if_neg hne]
      exact ih s e he
    · rw [if_neg h] at he
      rcases List.mem_cons.mp he with rfl | he'
      · rw [Search.firstWithKey, if_pos rfl]
      · have hkeys := dedupEnts_not_mem_seen _ _ e he'
        have hne : a.key ≠ e.key := by
          intro hk
          exact hkeys (by rw [← hk]; exact List.mem_cons_self _ _)
        rw [Search.firstWithKey, if_neg hne]
        exact ih (a.key :: s) e he'

/-- Cancellation around the first slash: two slash-free lists followed by a
slash-separated tail determine each other. -/
theorem noslash_append_inj :
    ∀ (a : List Char) {b p q : List Char}, '/' ∉ a → '/' ∉ b →
      a ++ '/' :: p = b ++ '/' :: q → a = b ∧ p = q := by
  intro a
  induction a with
  | nil =>
    intro b p q _ hb h
    cases b with
    | nil =>
      simp only [List.nil_append, List.cons.injEq] at h
      exact ⟨rfl, h.2⟩
    | cons c bs =>
      simp only [List.nil_append, List.cons_append, List.cons.injEq] at h
      exact absurd (h.1 ▸ List.mem_cons_self c bs) hb
  | cons c as ih =>
    intro b p q ha hb h
    cases b with
    | nil =>
      simp only [List.cons_append, List.nil_append, List.cons.injEq] at h
      exact absurd (h.1.symm ▸ List.mem_cons_self c as) ha
    | cons d bs =>
      simp only [List.cons_append, List.cons.injEq] at h
      obtain ⟨rfl, h2⟩ := h
      have hrec := ih (fun hm => ha (List.mem_cons_of_mem _ hm))
        (fun hm => hb (List.mem_cons_of_mem _ hm)) h2
      exact ⟨by rw [hrec.1], hrec.2⟩

/-- The character-list expansion of the constructed identifier. -/
theorem constructIdentifier_data (s p : String) :
    (Ingester.constructIdentifier s p).data =
      s.data.map Ingester.normChar ++ '/' :: p.data.map Ingester.normChar := by
  show (s ++ "/" ++ p).data.map Ingester.normChar = _
  rw [strDataAppend, strDataAppend, List.map_append, List.map_append]
  have hmid : List.map Ingester.normChar ("/" : String).data = ['/'] := by decide
  rw [hmid, List.append_assoc]
  rfl

/-! Claim theorems. -/

/-- C1: counterexample — on the spec's worked example
(content "# Just a Header\n\nSome text.", source github,
file_path org/repo/README.md) the whitespace-split body is
["#", "Just", "a", "Header", "Some", "text."], so `parse` does not return
word_count 4 as the claim states. -/
theorem counterexample_C1 : c1doc.wordCount ≠ 4 := by decide

/-- C1 (amended): on the worked example, `parse` returns title
"Just a Header", a tags list containing "repo", and word_count 6 — the
length of the whitespace-split body, which includes the heading tokens. -/
theorem claim_C1 :
    c1doc.title = "Just a Header" ∧ "repo" ∈ c1doc.tags ∧ c1doc.wordCount = 6 := by
  decide

/-- C3: counterexample — the identifier derivation is not injective: the two
distinct (source, file_path) pairs (github, "a b") and (github, "a-b")
derive the same identifier under the lowercase/space-to-hyphen rule. -/
theorem counterexample_C3 :
    Ingester.constructIdentifier "github" "a b" =
      Ingester.constructIdentifier "github" "a-b" ∧
    (("github", "a b") : String × String) ≠ ("github", "a-b") := by
  decide

/-- C3 (amended): the identifier derivation is deterministic (a function of
the pair, so re-ingesting the same pair always derives the same identifier,
giving upsert-overwrite rather than duplication), and it is injective only
on pairs that are already normalization fixed points (no uppercase, no
spaces) whose source contains no slash; distinct pairs outside that set can
collide. -/
theorem claim_C3 (s1 p1 s2 p2 : String)
    (hs1 : Ingester.normStr s1 = s1) (hp1 : Ingester.normStr p1 = p1)
    (hs2 : Ingester.normStr s2 = s2) (hp2 : Ingester.normStr p2 = p2)
    (hn1 : '/' ∉ s1.data) (hn2 : '/' ∉ s2.data)
    (h : Ingester.constructIdentifier s1 p1 = Ingester.constructIdentifier s2 p2) :
    s1 = s2 ∧ p1 = p2 := by
  have hd := congrArg String.data h
  rw [constructIdentifier_data, constructIdentifier_data] at hd
  have hm1 : s1.data.map Ingester.normChar = s1.data := congrArg String.data hs1
  have hm2 : p1.data.map Ingester.normChar = p1.data := congrArg String.data hp1
  have hm3 : s2.data.map Ingester.normChar = s2.data := congrArg String.data hs2
  have hm4 : p2.data.map Ingester.normChar = p2.data := congrArg String.data hp2
  rw [hm1, hm2, hm3, hm4] at hd
  obtain ⟨h1, h2⟩ := noslash_append_inj s1.data hn1 hn2 hd
  exact ⟨strDataInj h1, strDataInj h2⟩

/-- C3 witness: the amended injectivity theorem applied at concrete
normalized slash-free sources, with every hypothesis discharged by
evaluation. -/
theorem claim_C3_witness :
    ("github" : String) = "github" ∧ ("docs/readme.md" : String) = "docs/readme.md" :=
  claim_C3 "github" "docs/readme.md" "github" "docs/readme.md"
    (by decide) (by decide) (by decide) (by decide) (by decide) (by decide) (by decide)

/-- C4: for every remote behavior, query and max_results, the result of
multi_strategy_search has length at most max_results and pairwise distinct
identifier keys; it is the max_results-truncation of the deduplicated
concatenation in which the deduplicated direct-search results precede the
keyword results, and every returned entry is the first occurrence of its
identifier in the concatenated strategy results. -/
theorem claim_C4 (remote : String → Except String (List Search.Entity)) (query : String)
    (maxResults : Nat) :
    (Search.multiStrategySearch remote query maxResults).length ≤ maxResults ∧
    ((Search.multiStrategySearch remote query maxResults).map Search.Entity.key).Nodup ∧
    Search.multiStrategySearch remote query maxResults =
      (Search.dedupEnts [] (Search.directPart remote query maxResults) ++
        Search.dedupEnts (Search.seenAfter [] (Search.directPart remote query maxResults))
          (Search.keywordPart remote query maxResults)).take maxResults ∧
    (∀ e ∈ Search.multiStrategySearch remote query maxResults,
      Search.firstWithKey e.key
        (Search.directPart remote query maxResults ++
          Search.keywordPart remote query maxResults) = some e) := by
  refine ⟨List.length_take_le _ _, ?_, ?_, ?_⟩
  · unfold Search.multiStrategySearch
    rw [List.map_take]
    exact (dedupEnts_keys_nodup [] _).sublist (List.take_sublist _ _)
  · unfold Search.multiStrategySearch
    rw [dedupEnts_append]
  · intro e he
    unfold Search.multiStrategySearch at he
    exact dedupEnts_first [] _ e (List.mem_of_mem_take he)

/-- C4 witness: the theorem at a concrete remote/query/limit, with the
first-occurrence property instantiated at a concrete returned entity. -/
theorem claim_C4_witness :
    (Search.multiStrategySearch remoteDemo "getting started" 10).length ≤ 10 ∧
    Search.firstWithKey entGuide.key
      (Search.directPart remoteDemo "getting started" 10 ++
        Search.keywordPart remoteDemo "getting started" 10) = some entGuide :=
  ⟨(claim_C4 remoteDemo "getting started" 10).1,
   (claim_C4 remoteDemo "getting started" 10).2.2.2 entGuide (by decide)⟩

/-- C2: for every remote behavior and query, search_and_respond
(custom_search.py) returns the fixed no-results suggestion template when the
multi-strategy result set is empty, and otherwise a text made of the header,
the numbered rendering of at most the first 5 results (title, category,
truncated summary), the overflow count, and the related-categories /
related-topics footer computed from the full deduplicated result set. -/
theorem claim_C2 (remote : String → Except String (List Search.Entity)) (query : String) :
    (Search.multiStrategySearch remote query 10 = [] →
      CustomSearch.searchAndRespond remote query = CustomSearch.noResultsResponse query) ∧
    (Search.multiStrategySearch remote query 10 ≠ [] →
      CustomSearch.searchAndRespond remote query =
        "Based on your query about '" ++ query ++ "', here's what I found:\n\n" ++
          CustomSearch.itemsFrom 1 ((Search.multiStrategySearch remote query 10).take 5) ++
          CustomSearch.overflowNote (Search.multiStrategySearch remote query 10) ++
          CustomSearch.relatedFooter (Search.multiStrategySearch remote query 10)) := by
  constructor
  · intro h
    simp only [CustomSearch.searchAndRespond]
    rw [h]
    rfl
  · intro h
    simp only [CustomSearch.searchAndRespond]
    cases hres : Search.multiStrategySearch remote query 10 with
    | nil => exact absurd hres h
    | cons a t => rfl

/-- C2 witness: the theorem applied at a concrete remote and query with a
non-empty result set. -/
theorem claim_C2_witness :
    Search.multiStrategySearch remoteDemo "getting started" 10 ≠ [] ∧
    CustomSearch.searchAndRespond remoteDemo "getting started" =
      "Based on your query about '" ++ "getting started" ++ "', here's what I found:\n\n" ++
        CustomSearch.itemsFrom 1 ((Search.multiStrategySearch remoteDemo "getting started" 10).take 5) ++
        CustomSearch.overflowNote (Search.multiStrategySearch remoteDemo "getting started" 10) ++
        CustomSearch.relatedFooter (Search.multiStrategySearch remoteDemo "getting started" 10) :=
  ⟨by decide, (claim_C2 remoteDemo "getting started").2 (by decide)⟩

/-- C9: a remote search error is surfaced as a structured
ok=false/error response by search_entities; consequently, whenever every
remote call fails, multi_strategy_search returns the empty list and
search_and_respond (bot.py) returns the no-results response — the search
path never crashes on remote failure. -/
theorem claim_C9 (remote : String → Except String (List Search.Entity)) :
    (∀ term msg, remote term = Except.error msg →
      Search.searchEntities remote term = ⟨false, [], some msg⟩) ∧
    (∀ query : String, (∀ term, ∃ msg, remote term = Except.error msg) →
      (∀ maxResults, Search.multiStrategySearch remote query maxResults = []) ∧
      Bot.searchAndRespond remote query = Bot.noResultsResponse query) := by
  constructor
  · intro t m h
    unfold Search.searchEntities
    rw [h]
  · intro q hfail
    have hdirect : ∀ n, Search.directPart remote q n = [] := by
      intro n
      obtain ⟨m, hm⟩ := hfail q
      simp [Search.directPart, Search.searchEntities, hm]
    have hkw : ∀ n, Search.keywordPart remote q n = [] := by
      intro n
      unfold Search.keywordPart
      by_cases hlen : 1 < (pyWords q).length
      · rw [if_pos hlen, List.flatten_eq_nil_iff]
        intro x hx
        rcases List.mem_map.mp hx with ⟨kw, _hkw, rfl⟩
        obtain ⟨m, hm⟩ := hfail kw
        by_cases h3 : 3 < kw.length
        · simp [h3, Search.searchEntities, hm]
        · simp [h3]
      · rw [if_neg hlen]
    have hms : ∀ n, Search.multiStrategySearch remote q n = [] := by
      intro n
      unfold Search.multiStrategySearch
      rw [hdirect n, hkw n]
      simp [Search.dedupEnts]
    refine ⟨hms, ?_⟩
    simp only [Bot.searchAndRespond]
    rw [hms 10]
    rfl

/-- C9 witness: the theorem applied to a remote on which every call raises,
at a concrete query. -/
theorem claim_C9_witness :
    Search.searchEntities remoteDown "docs" = ⟨false, [], some "connection error"⟩ ∧
    Search.multiStrategySearch remoteDown "setup guide docs" 10 = [] ∧
    Bot.searchAndRespond remoteDown "setup guide docs" =
      Bot.noResultsResponse "setup guide docs" :=
  ⟨(claim_C9 remoteDown).1 "docs" "connection error" rfl,
   ((claim_C9 remoteDown).2 "setup guide docs" (fun _ => ⟨"connection error", rfl⟩)).1 10,
   ((claim_C9 remoteDown).2 "setup guide docs" (fun _ => ⟨"connection error", rfl⟩)).2⟩

/-- C5: parse resolves the title in order: a present, non-empty (well-formed)
front-matter title is returned exactly as is; otherwise (front-matter title
absent or falsy) the leftmost multiline match of the regex ^#\s+(.+)$ in the
body gives the title after leading/trailing whitespace stripping; when no
such heading exists the title is the filename-derived title (stem,
separators to spaces, title-cased). -/
theorem claim_C5 (yaml : String → Except String DocParser.YamlDoc) (render : String → String)
    (content source filePath lastUpdated : String) (repoUrl fileUrl : Option String) :
    (∀ t : String,
      (DocParser.extractFrontmatter yaml content).1.title = some t → t ≠ "" →
      (DocParser.parse yaml render content source filePath lastUpdated repoUrl fileUrl).title =
        t) ∧
    ((DocParser.extractFrontmatter yaml content).1.title = none ∨
        (DocParser.extractFrontmatter yaml content).1.title = some "" →
      (∀ g : List Char,
          DocParser.searchTitle (DocParser.extractFrontmatter yaml content).2 = some g →
          (DocParser.parse yaml render content source filePath lastUpdated repoUrl
            fileUrl).title = (⟨pyStripList g⟩ : String)) ∧
        (DocParser.searchTitle (DocParser.extractFrontmatter yaml content).2 = none →
          (DocParser.parse yaml render content source filePath lastUpdated repoUrl
            fileUrl).title = DocParser.filenameTitle filePath)) := by
  constructor
  · intro t ht hne
    have hbeq : (t == "") = false := beq_eq_false_iff_ne.mpr hne
    simp only [DocParser.parse]
    rw [ht]
    simp [DocParser.orFalsy, hbeq]
  · intro hfm
    have hfall :
        (DocParser.parse yaml render content source filePath lastUpdated repoUrl fileUrl).title =
          DocParser.extractTitle (DocParser.extractFrontmatter yaml content).2 filePath := by
      rcases hfm with h | h
      · simp only [DocParser.parse]
        rw [h]
        rfl
      · simp only [DocParser.parse]
        rw [h]
        rfl
    constructor
    · intro g hg
      rw [hfall]
      simp only [DocParser.extractTitle]
      rw [hg]
    · intro hg
      rw [hfall]
      simp only [DocParser.extractTitle]
      rw [hg]

/-- C5 witness: a document whose front matter has title "My Title"; parse
returns it exactly. -/
theorem claim_C5_witness :
    (DocParser.extractFrontmatter yamlTitleOnly contentTitled).1.title = some "My Title" ∧
    (DocParser.parse yamlTitleOnly renderId contentTitled "local" "docs/guide.md"
      "2024-05-01" none none).title = "My Title" :=
  ⟨by decide,
   (claim_C5 yamlTitleOnly renderId contentTitled "local" "docs/guide.md" "2024-05-01"
      none none).1 "My Title" (by decide) (by decide)⟩

/-- C7: when the front matter carries no truthy category, the parsed
category is decided by the claimed fixed-priority path-substring rules
(categoryRule is written from the claim's wording and proved to coincide
with the code's categorize_document). -/
theorem claim_C7 (yaml : String → Except String DocParser.YamlDoc) (render : String → String)
    (content source filePath lastUpdated : String) (repoUrl fileUrl : Option String)
    (hfm : (DocParser.extractFrontmatter yaml content).1.category = none ∨
      (DocParser.extractFrontmatter yaml content).1.category = some "") :
    (DocParser.parse yaml render content source filePath lastUpdated repoUrl fileUrl).category =
      some (categoryRule filePath) := by
  rcases hfm with h | h
  · simp only [DocParser.parse]
    rw [h]
    rfl
  · simp only [DocParser.parse]
    rw [h]
    rfl

/-- C7 witness: a front-matter-free document under guides/ is categorized
"Guide" by the rule. -/
theorem claim_C7_witness :
    (DocParser.parse yamlUnused renderId "Some doc body" "local" "guides/test-document.md"
      "2024-05-01" none none).category = some (categoryRule "guides/test-document.md") ∧
    categoryRule "guides/test-document.md" = "Guide" :=
  ⟨claim_C7 yamlUnused renderId "Some doc body" "local" "guides/test-document.md"
      "2024-05-01" none none (Or.inl (by decide)),
   by decide⟩

/-- C10: because parse combines front-matter fields with Python `or`, a
present-but-empty front-matter title, description or category is ignored
and the derived fallback is used instead. -/
theorem claim_C10 (yaml : String → Except String DocParser.YamlDoc) (render : String → String)
    (content source filePath lastUpdated : String) (repoUrl fileUrl : Option String) :
    ((DocParser.extractFrontmatter yaml content).1.title = some "" →
      (DocParser.parse yaml render content source filePath lastUpdated repoUrl fileUrl).title =
        DocParser.extractTitle (DocParser.extractFrontmatter yaml content).2 filePath) ∧
    ((DocParser.extractFrontmatter yaml content).1.description = some "" →
      (DocParser.parse yaml render content source filePath lastUpdated repoUrl fileUrl).summary =
        some (DocParser.generateSummary render (DocParser.extractFrontmatter yaml content).2)) ∧
    ((DocParser.extractFrontmatter yaml content).1.category = some "" →
      (DocParser.parse yaml render content source filePath lastUpdated repoUrl fileUrl).category =
        some (DocParser.categorizeDocument filePath
          (DocParser.extractFrontmatter yaml content).2)) := by
  refine ⟨fun h => ?_, fun h => ?_, fun h => ?_⟩ <;>
    (simp only [DocParser.parse]; rw [h]; rfl)

/-- C10 witness: a document whose front matter contains an empty title takes
its title from the first level-1 heading of the body. -/
theorem claim_C10_witness :
    (DocParser.extractFrontmatter yamlFalsy contentFalsyFM).1.title = some "" ∧
    (DocParser.parse yamlFalsy renderId contentFalsyFM "local" "notes/x-file.md" "2024-05-01"
      none none).title =
      DocParser.extractTitle (DocParser.extractFrontmatter yamlFalsy contentFalsyFM).2
        "notes/x-file.md" ∧
    DocParser.extractTitle (DocParser.extractFrontmatter yamlFalsy contentFalsyFM).2
      "notes/x-file.md" = "Real Heading" :=
  ⟨by decide,
   (claim_C10 yamlFalsy renderId contentFalsyFM "local" "notes/x-file.md" "2024-05-01"
      none none).1 (by decide),
   by decide⟩

set_option maxRecDepth 8000 in
/-- C6: counterexample — a body that is one 300-character word renders to
itself as plain text; generate_summary keeps its first 250 characters
(the prefix has no space to back up to) and appends "...", producing a
253-character summary, so the returned summary's length does exceed the
stated maximum of 250. -/
theorem counterexample_C6 :
    (DocParser.generateSummary renderId longWord).length = 253 ∧
    ¬ (DocParser.generateSummary renderId longWord).length ≤ 250 := by
  decide

/-- C6 (amended): the summary is the first 50 whitespace-separated words of
the rendered plain text joined by single spaces; when that exceeds 250
characters the code keeps the 250-character prefix backed up to its last
space (the whole prefix when it has no space) and appends a trailing
ellipsis, so the returned summary is at most 253 characters — it can exceed
250. -/
theorem claim_C6 (render : String → String) (content : String) :
    ((first50Words render content).length ≤ 250 →
      DocParser.generateSummary render content = first50Words render content) ∧
    (250 < (first50Words render content).length →
      DocParser.generateSummary render content =
        (⟨DocParser.beforeLastSpace ((first50Words render content).data.take 250)⟩ : String) ++
          "..." ∧
      (DocParser.generateSummary render content).length ≤ 253) := by
  have hsum : DocParser.generateSummary render content =
      (if 250 < (first50Words render content).length then
        (⟨DocParser.beforeLastSpace ((first50Words render content).data.take 250)⟩ : String) ++
          "..."
      else first50Words render content) := rfl
  constructor
  · intro h
    rw [hsum, if_neg (by omega)]
  · intro h
    refine ⟨by rw [hsum, if_pos h], ?_⟩
    rw [hsum, if_pos h, strLengthAppend, strLengthMk]
    have h1 := beforeLastSpace_length_le ((first50Words render content).data.take 250)
    have h2 := List.length_take_le 250 (first50Words render content).data
    have h3 : ("..." : String).length = 3 := rfl
    omega

/-- C6 witness: a short body whose 50-word join is under the limit is
returned unchanged. -/
theorem claim_C6_witness :
    (first50Words renderId "hello world").length ≤ 250 ∧
    DocParser.generateSummary renderId "hello world" = first50Words renderId "hello world" :=
  ⟨by decide, (claim_C6 renderId "hello world").1 (by decide)⟩

/-- C8: counterexample — on the input "  hello  " (no front matter) the
frontmatter library strips surrounding whitespace, so extract_frontmatter
does not return the entire unmodified content as the body. -/
theorem counterexample_C8 :
    (DocParser.extractFrontmatter yamlUnused "  hello  ").2 ≠ "  hello  " := by
  decide

/-- C8 (amended): extract_frontmatter is total and never propagates a parse
error.  When frontmatter.loads raises (malformed front matter), it returns
the empty mapping together with the original content unchanged; when the
(stripped) content starts with no front-matter boundary, it returns the
empty mapping together with the content stripped of leading and trailing
whitespace — not the fully unmodified content. -/
theorem claim_C8 (yaml : String → Except String DocParser.YamlDoc) (content : String) :
    (∀ e, DocParser.frontmatterLoads yaml content = Except.error e →
      DocParser.extractFrontmatter yaml content = (DocParser.emptyFM, content)) ∧
    (DocParser.matchBoundaryAt (pyStripList content.data) = none →
      DocParser.extractFrontmatter yaml content =
        (DocParser.emptyFM, (⟨pyStripList content.data⟩ : String))) := by
  constructor
  · intro e he
    unfold DocParser.extractFrontmatter
    rw [he]
  · intro h
    simp only [DocParser.extractFrontmatter, DocParser.frontmatterLoads]
    rw [h]
    rfl

/-- C8 witness: a malformed front-matter block (the yaml oracle raises); the
original content is returned unchanged next to the empty mapping. -/
theorem claim_C8_witness :
    DocParser.frontmatterLoads yamlBad "---\ntitle: [\n---\nbody" =
      Except.error "bad yaml value" ∧
    DocParser.extractFrontmatter yamlBad "---\ntitle: [\n---\nbody" =
      (DocParser.emptyFM, "---\ntitle: [\n---\nbody") :=
  ⟨rfl, (claim_C8 yamlBad "---\ntitle: [\n---\nbody").1 "bad yaml value" rfl⟩
